import Mathlib

/-!
# Verification of the AS_TASK1 image-tool core

Shallow embedding of the path-validation, result-formatting and
selection-state logic of `AS_TASK1.py`.  GUI plumbing (window and button
construction, the event loop) is not modelled; the file dialog, the face
detector and the image classifier are opaque external collaborators and
enter the model as parameters (a picked path string, a `ModelOutcome`).

Python strings are modelled as Lean `String`s and manipulated through
their character lists; Python float confidences are modelled as exact
rationals `ℚ` (the two-decimal rendering of `:.2f` is embedded by `fmt2`
below).
-/

/-- Characters of a string, lowercased as by `re.IGNORECASE` on the ASCII
letters of the pattern `jpg|jpeg|png`. -/
def lowerChars (l : List Char) : List Char := l.map Char.toLower

/-- One alternative of the regex `.*\.(jpg|jpeg|png)$` at the end of the
(newline-stripped) subject `l`: the extension `ext` (dot included) is a
case-insensitive suffix of `l`, and the part matched by `.*` — everything
before the dot — contains no newline, since `.` does not match `\n`. -/
def extOk (l : List Char) (ext : List Char) : Bool :=
  decide (ext <:+ lowerChars l) && decide ('\n' ∉ l.take (l.length - ext.length))

/-- The `$` anchor of the regex matches at the end of the string or just
before one terminal newline, so a single trailing newline is dropped
before the suffix is examined. -/
def stripNl (l : List Char) : List Char :=
  if ['\n'] <:+ l then l.dropLast else l

/-- Embeds the truth value of
`re.match(r".*\.(jpg|jpeg|png)$", path, re.IGNORECASE)`
(src/AS_TASK1.py line 102).  `re.match` anchors at the start only; `.`
does not match a newline; `$` matches at the end of the string or just
before one terminal newline.  Hence: strip at most one trailing newline,
then require one of the three extensions as a case-insensitive suffix
with a newline-free remainder before it. -/
def imageExtMatchChars (l : List Char) : Bool :=
  extOk (stripNl l) ".jpg".data || extOk (stripNl l) ".jpeg".data ||
    extOk (stripNl l) ".png".data

/-- The path validator applied to a path string. -/
def imageExtMatch (path : String) : Bool := imageExtMatchChars path.data

/-- The path validator as a result: `re.match` succeeds, or the
`ValueError("Selected file is not a valid image.")` raised at
src/AS_TASK1.py line 103. -/
def validate (path : String) : Except String Unit :=
  if imageExtMatch path then Except.ok ()
  else Except.error "Selected file is not a valid image."

/-- `"\n".join(lines)`: empty string on no lines, otherwise the lines
separated by single newlines, with no trailing newline. -/
def joinLines : List String → String
  | [] => ""
  | [l] => l
  | l :: ls => l ++ "\n" ++ joinLines ls

/-- Two-decimal rendering of a rational, embedding the Python format spec
`:.2f` (src/AS_TASK1.py line 68).  Python formats the IEEE double; the
model uses the exact rational and rounds half up — the two agree at every
value this development evaluates (none is a tie, and the float error is
far below half an ulp of the second decimal there).  Confidences are
nonnegative (the data model puts them in `[0,1]`), so the `Int.toNat`
clamp is inert. -/
def fmt2 (q : ℚ) : String :=
  let m : ℕ := (⌊q * 100 + 1 / 2⌋).toNat
  toString (m / 100) ++ "." ++
    (if m % 100 < 10 then "0" ++ toString (m % 100) else toString (m % 100))

/-- Outcome of an opaque upstream model invocation: a result, a
`FileNotFoundError`, or any other exception with its message `str(e)`. -/
inductive ModelOutcome (α : Type) where
  | ok : α → ModelOutcome α
  | fileNotFound : ModelOutcome α
  | failure : String → ModelOutcome α

/-- A face bounding box `(top, right, bottom, left)` in pixel coordinates. -/
abbrev FaceBox := ℤ × ℤ × ℤ × ℤ

/-- The line emitted for one face box (src/AS_TASK1.py line 37):
`f"Top: {top}, Right: {right}, Bottom: {bottom}, Left: {left}"`. -/
def faceLine (b : FaceBox) : String :=
  "Top: " ++ toString b.1 ++ ", Right: " ++ toString b.2.1 ++
  ", Bottom: " ++ toString b.2.2.1 ++ ", Left: " ++ toString b.2.2.2

/-- `FacialRecognitionModel.run_model` (src/AS_TASK1.py lines 27-44): the
upstream `face_recognition` calls are the opaque outcome; the method's own
code is the `len == 0` check, the per-box lines joined by `"\n"`, and the
two `except` clauses. -/
def FacialRecognitionModel.run_model (o : ModelOutcome (List FaceBox)) : String :=
  match o with
  | ModelOutcome.ok face_locations =>
      if face_locations.length = 0 then "No face found"
      else joinLines (face_locations.map faceLine)
  | ModelOutcome.fileNotFound => "Error: File not found. Please select a valid image file."
  | ModelOutcome.failure e => "Error in Facial Recognition: " ++ e

/-- The line emitted for one decoded prediction `pred`
(src/AS_TASK1.py line 68): `f"{pred[1]}: {pred[2] * 100:.2f}%"`.  A
prediction is modelled by its used components `(label, confidence)`
(`pred[1]`, `pred[2]`); the unused class id `pred[0]` is dropped. -/
def classificationLine (e : String × ℚ) : String :=
  e.1 ++ ": " ++ fmt2 (e.2 * 100) ++ "%"

/-- `ImageClassificationModel.run_model` (src/AS_TASK1.py lines 57-72):
the upstream keras calls are the opaque outcome; the method's own code is
the per-prediction lines joined by `"\n"`, and the two `except` clauses. -/
def ImageClassificationModel.run_model (o : ModelOutcome (List (String × ℚ))) : String :=
  match o with
  | ModelOutcome.ok decoded_predictions =>
      joinLines (decoded_predictions.map classificationLine)
  | ModelOutcome.fileNotFound => "Error: File not found. Please select a valid image file."
  | ModelOutcome.failure e => "Error in Image Classification: " ++ e

/-- A `messagebox.showerror(title, message)` call. -/
structure MessageBox where
  title : String
  message : String
deriving DecidableEq

/-- The application state the claims need: `image_path` is `none` while
the attribute has never been assigned (`hasattr` is false) and `some p`
afterwards; `text_output` is the list of chunks inserted into the text
widget, in order. -/
structure AppState where
  image_path : Option String
  text_output : List String
deriving DecidableEq

/-- `Application.select_image` (src/AS_TASK1.py lines 97-108), with the
file-dialog result `picked` as a parameter.  The assignment
`self.image_path = ...` happens first, unconditionally; `if
self.image_path:` is Python truthiness, so the empty (cancelled) result
skips validation; a failed `re.match` raises
`ValueError("Selected file is not a valid image.")`, caught in the same
method and shown as an "Invalid File" error box.  Returns the new state
and the error box shown, if any. -/
def select_image (s : AppState) (picked : String) : AppState × Option MessageBox :=
  let s1 : AppState := { s with image_path := some picked }
  if picked = "" then (s1, none)
  else if imageExtMatch picked then
    ({ s1 with text_output := s1.text_output ++ ["Selected Image: " ++ picked ++ "\n"] }, none)
  else (s1, some { title := "Invalid File", message := "Selected file is not a valid image." })

/-- `Application.run_facial_recognition` (src/AS_TASK1.py lines 110-120),
with the model wrapper abstracted as a function `model : String → String`
from the path to the text `run_model` returns.  The guard is
`hasattr(self, 'image_path')`: presence of the attribute, regardless of
its value. -/
def run_facial_recognition (s : AppState) (model : String → String) :
    AppState × Option MessageBox :=
  match s.image_path with
  | some p =>
      ({ s with text_output :=
          s.text_output ++ ["Facial Recognition Result:\n" ++ model p ++ "\n"] }, none)
  | none => (s, some { title := "Error", message := "Please select an image first!" })

/-- `Application.run_image_classification` (src/AS_TASK1.py lines 122-132),
abstracted like `run_facial_recognition`. -/
def run_image_classification (s : AppState) (model : String → String) :
    AppState × Option MessageBox :=
  match s.image_path with
  | some p =>
      ({ s with text_output :=
          s.text_output ++ ["Image Classification Result:\n" ++ model p ++ "\n"] }, none)
  | none => (s, some { title := "Error", message := "Please select an image first!" })

example : imageExtMatch "photo.jpg" = true := by decide
example : imageExtMatch "PHOTO.PnG" = true := by decide
example : imageExtMatch "photo.gif" = false := by decide
example : imageExtMatch "" = false := by decide
example : imageExtMatch "a\nb.jpg" = false := by decide
example : imageExtMatch "x.jpg\n" = true := by decide
example : faceLine (10, 50, 60, 5) = "Top: 10, Right: 50, Bottom: 60, Left: 5" := by decide

lemma stripNl_of_no_trailing_newline {l : List Char} (h : ¬ ['\n'] <:+ l) :
    stripNl l = l := if_neg h

lemma stripNl_of_not_mem_newline {l : List Char} (h : '\n' ∉ l) : stripNl l = l :=
  stripNl_of_no_trailing_newline fun hs => h (hs.subset (List.mem_singleton_self _))

lemma extOk_eq_true {l ext : List Char} (hsuf : ext <:+ lowerChars l)
    (hnl : '\n' ∉ l) : extOk l ext = true := by
  simp only [extOk, Bool.and_eq_true, decide_eq_true_eq]
  exact ⟨hsuf, fun hmem => hnl (List.take_subset _ _ hmem)⟩

lemma extOk_eq_false {l ext : List Char} (hsuf : ¬ ext <:+ lowerChars l) :
    extOk l ext = false := by
  simp only [extOk, Bool.and_eq_false_iff, decide_eq_false_iff_not]
  exact Or.inl hsuf

lemma imageExtMatch_eq_true_of_suffix {p : String} (hnl : '\n' ∉ p.data)
    (hext : ".jpg".data <:+ lowerChars p.data ∨ ".jpeg".data <:+ lowerChars p.data ∨
      ".png".data <:+ lowerChars p.data) :
    imageExtMatch p = true := by
  unfold imageExtMatch imageExtMatchChars
  rw [stripNl_of_not_mem_newline hnl]
  rcases hext with h | h | h
  · simp [extOk_eq_true h hnl]
  · simp [extOk_eq_true h hnl]
  · simp [extOk_eq_true h hnl]

lemma imageExtMatch_eq_false_of_not_suffix {p : String} (htail : ¬ ['\n'] <:+ p.data)
    (hext : ¬ (".jpg".data <:+ lowerChars p.data ∨ ".jpeg".data <:+ lowerChars p.data ∨
      ".png".data <:+ lowerChars p.data)) :
    imageExtMatch p = false := by
  push_neg at hext
  unfold imageExtMatch imageExtMatchChars
  rw [stripNl_of_no_trailing_newline htail]
  simp [extOk_eq_false hext.1, extOk_eq_false hext.2.1, extOk_eq_false hext.2.2]

/-- C1 counterexample: the path `"a\nb.jpg"` ends, compared
case-insensitively, in `.jpg`, yet the validator rejects it (the `.*` of
the regex cannot cross the embedded newline), contradicting the claim
that every such path is accepted. -/
theorem imageExtMatch_misses_newline_jpg_path :
    (".jpg".data <:+ lowerChars ("a\nb.jpg").data) ∧
      validate "a\nb.jpg" = Except.error "Selected file is not a valid image." :=
  ⟨by decide, rfl⟩

/-- C1 (amended): for every path string containing no newline character
whose ending, compared case-insensitively, is `.jpg`, `.jpeg` or `.png`,
the validator used at image selection accepts (no rejection is raised). -/
theorem validate_accepts_newline_free_image_extensions (p : String)
    (hnl : '\n' ∉ p.data)
    (hext : ".jpg".data <:+ lowerChars p.data ∨ ".jpeg".data <:+ lowerChars p.data ∨
      ".png".data <:+ lowerChars p.data) :
    validate p = Except.ok () := by
  simp [validate, imageExtMatch_eq_true_of_suffix hnl hext]

/-- Witness for C1 at the concrete path `"photo.JPG"`. -/
theorem validate_accepts_newline_free_image_extensions_witness :
    validate "photo.JPG" = Except.ok () :=
  validate_accepts_newline_free_image_extensions "photo.JPG" (by decide)
    (Or.inl (by decide))

/-- C2 counterexample: the path `"a.jpg\n"` does not end, compared
case-insensitively, in `.jpg`, `.jpeg` or `.png` (it ends in a newline),
yet the validator accepts it (the regex `$` matches just before one
terminal newline), contradicting the claim that every such path is
rejected. -/
theorem validate_accepts_trailing_newline_path :
    (¬ (".jpg".data <:+ lowerChars ("a.jpg\n").data ∨
        ".jpeg".data <:+ lowerChars ("a.jpg\n").data ∨
        ".png".data <:+ lowerChars ("a.jpg\n").data)) ∧
      validate "a.jpg\n" = Except.ok () :=
  ⟨by decide, rfl⟩

/-- C2 (amended): for every path string that does not end with a newline
character and does not end, compared case-insensitively, in `.jpg`,
`.jpeg` or `.png`, the validator rejects, and the rejection carries
exactly the message `"Selected file is not a valid image."`. -/
theorem validate_rejects_non_image_paths (p : String)
    (htail : ¬ ['\n'] <:+ p.data)
    (hext : ¬ (".jpg".data <:+ lowerChars p.data ∨ ".jpeg".data <:+ lowerChars p.data ∨
      ".png".data <:+ lowerChars p.data)) :
    validate p = Except.error "Selected file is not a valid image." := by
  simp [validate, imageExtMatch_eq_false_of_not_suffix htail hext]

/-- Witness for C2 at the concrete path `"photo.gif"`. -/
theorem validate_rejects_non_image_paths_witness :
    validate "photo.gif" = Except.error "Selected file is not a valid image." :=
  validate_rejects_non_image_paths "photo.gif" (by decide) (by decide)

/-- C3: the classification formatter emits, for each entry in input
order, the line `label ++ ": " ++ (confidence*100 to two decimals) ++ "%"`,
joins the lines with a single newline and no trailing newline, and
returns the empty string on the empty input. -/
theorem classification_format_spec :
    ImageClassificationModel.run_model (ModelOutcome.ok []) = "" ∧
    (∀ e : String × ℚ, ImageClassificationModel.run_model (ModelOutcome.ok [e]) =
      e.1 ++ ": " ++ fmt2 (e.2 * 100) ++ "%") ∧
    (∀ (e : String × ℚ) (es : List (String × ℚ)), es ≠ [] →
      ImageClassificationModel.run_model (ModelOutcome.ok (e :: es)) =
        (e.1 ++ ": " ++ fmt2 (e.2 * 100) ++ "%") ++ "\n" ++
          ImageClassificationModel.run_model (ModelOutcome.ok es)) := by
  refine ⟨rfl, fun e => rfl, fun e es hes => ?_⟩
  cases es with
  | nil => exact absurd rfl hes
  | cons x xs => rfl

/-- Witness for C3 at a concrete two-entry list. -/
theorem classification_format_spec_witness :
    ([(("dog" : String), (1 : ℚ)/4)] ≠ []) ∧
      ImageClassificationModel.run_model
          (ModelOutcome.ok [(("cat" : String), (1 : ℚ)/2), (("dog" : String), (1 : ℚ)/4)]) =
        ("cat" ++ ": " ++ fmt2 ((1 : ℚ)/2 * 100) ++ "%") ++ "\n" ++
          ImageClassificationModel.run_model (ModelOutcome.ok [(("dog" : String), (1 : ℚ)/4)]) :=
  ⟨by simp, classification_format_spec.2.2 ("cat", (1 : ℚ)/2) [("dog", (1 : ℚ)/4)] (by simp)⟩

/-- C4: the face-detection formatter returns exactly `"No face found"`
on the empty sequence of boxes, and otherwise one line per box
`"Top: <top>, Right: <right>, Bottom: <bottom>, Left: <left>"`, joined by
newline, preserving input order. -/
theorem face_format_spec :
    FacialRecognitionModel.run_model (ModelOutcome.ok []) = "No face found" ∧
    (∀ b : FaceBox, FacialRecognitionModel.run_model (ModelOutcome.ok [b]) =
      "Top: " ++ toString b.1 ++ ", Right: " ++ toString b.2.1 ++
        ", Bottom: " ++ toString b.2.2.1 ++ ", Left: " ++ toString b.2.2.2) ∧
    (∀ (b : FaceBox) (bs : List FaceBox), bs ≠ [] →
      FacialRecognitionModel.run_model (ModelOutcome.ok (b :: bs)) =
        faceLine b ++ "\n" ++ FacialRecognitionModel.run_model (ModelOutcome.ok bs)) := by
  refine ⟨rfl, fun b => rfl, fun b bs hbs => ?_⟩
  cases bs with
  | nil => exact absurd rfl hbs
  | cons x xs => rfl

/-- Witness for C4 at a concrete two-box list. -/
theorem face_format_spec_witness :
    ([((5 : ℤ), (6 : ℤ), (7 : ℤ), (8 : ℤ))] ≠ ([] : List FaceBox)) ∧
      FacialRecognitionModel.run_model
          (ModelOutcome.ok [((1 : ℤ), 2, 3, 4), ((5 : ℤ), 6, 7, 8)]) =
        faceLine ((1 : ℤ), 2, 3, 4) ++ "\n" ++
          FacialRecognitionModel.run_model (ModelOutcome.ok [((5 : ℤ), 6, 7, 8)]) :=
  ⟨by simp, face_format_spec.2.2 ((1 : ℤ), 2, 3, 4) [((5 : ℤ), 6, 7, 8)] (by simp)⟩

/-- C5: neither wrapper propagates an upstream failure; each returns the
fixed file-not-found message on `FileNotFoundError` and a
category-prefixed generic message carrying `str(e)` on any other
exception. -/
theorem run_model_failure_messages :
    FacialRecognitionModel.run_model (ModelOutcome.fileNotFound : ModelOutcome (List FaceBox)) =
      "Error: File not found. Please select a valid image file." ∧
    (∀ m : String, FacialRecognitionModel.run_model (ModelOutcome.failure m) =
      "Error in Facial Recognition: " ++ m) ∧
    ImageClassificationModel.run_model
        (ModelOutcome.fileNotFound : ModelOutcome (List (String × ℚ))) =
      "Error: File not found. Please select a valid image file." ∧
    (∀ m : String, ImageClassificationModel.run_model (ModelOutcome.failure m) =
      "Error in Image Classification: " ++ m) :=
  ⟨rfl, fun _ => rfl, rfl, fun _ => rfl⟩

/-- C6: on the specific input
`[("cat", 0.9231), ("dog", 0.041), ("fox", 0.002)]` the classification
formatter returns exactly `"cat: 92.31%\ndog: 4.10%\nfox: 0.20%"`. -/
theorem classification_concrete_example :
    ImageClassificationModel.run_model
        (ModelOutcome.ok [(("cat" : String), (9231 : ℚ)/10000),
          (("dog" : String), (41 : ℚ)/1000), (("fox" : String), (2 : ℚ)/1000)]) =
      "cat: 92.31%\ndog: 4.10%\nfox: 0.20%" := by
  have h1 : (⌊((9231 : ℚ)/10000 * 100) * 100 + 1/2⌋) = (9231 : ℤ) := by norm_num
  have h2 : (⌊((41 : ℚ)/1000 * 100) * 100 + 1/2⌋) = (410 : ℤ) := by norm_num
  have h3 : (⌊((2 : ℚ)/1000 * 100) * 100 + 1/2⌋) = (20 : ℤ) := by norm_num
  simp only [ImageClassificationModel.run_model, List.map, classificationLine, fmt2,
    h1, h2, h3, joinLines]
  rfl

/-- C7: on the specific single-box input `[(10, 50, 60, 5)]` the
face-detection formatter returns exactly
`"Top: 10, Right: 50, Bottom: 60, Left: 5"`. -/
theorem face_concrete_example :
    FacialRecognitionModel.run_model (ModelOutcome.ok [((10 : ℤ), 50, 60, 5)]) =
      "Top: 10, Right: 50, Bottom: 60, Left: 5" := by
  decide

/-- C8: with no selection ever made (`image_path` absent), either model
run reports `"Please select an image first!"` and leaves the state
untouched, for every possible model — so no model is invoked; and a
rejected extension at selection time is reported locally by
`select_image`, which consults no model at all. -/
theorem local_guards_report_without_model (s : AppState) (model : String → String)
    (p : String) (hno : s.image_path = none) (hp : p ≠ "")
    (hbad : imageExtMatch p = false) :
    run_facial_recognition s model =
      (s, some { title := "Error", message := "Please select an image first!" }) ∧
    run_image_classification s model =
      (s, some { title := "Error", message := "Please select an image first!" }) ∧
    select_image s p = ({ s with image_path := some p },
      some { title := "Invalid File", message := "Selected file is not a valid image." }) := by
  refine ⟨?_, ?_, ?_⟩
  · simp [run_facial_recognition, hno]
  · simp [run_image_classification, hno]
  · simp [select_image, hp, hbad]

/-- Witness for C8 at the initial state and the concrete path `"photo.gif"`. -/
theorem local_guards_report_without_model_witness :
    (AppState.mk none []).image_path = none ∧ ("photo.gif" : String) ≠ "" ∧
      imageExtMatch "photo.gif" = false ∧
      (run_facial_recognition (AppState.mk none []) (fun _ => "") =
        (AppState.mk none [],
          some { title := "Error", message := "Please select an image first!" }) ∧
      run_image_classification (AppState.mk none []) (fun _ => "") =
        (AppState.mk none [],
          some { title := "Error", message := "Please select an image first!" }) ∧
      select_image (AppState.mk none []) "photo.gif" =
        ({ AppState.mk none [] with image_path := some "photo.gif" },
          some { title := "Invalid File",
                 message := "Selected file is not a valid image." })) :=
  ⟨rfl, by decide, by decide,
    local_guards_report_without_model (AppState.mk none []) (fun _ => "") "photo.gif"
      rfl (by decide) (by decide)⟩

/-- C9: `select_image` assigns the chosen path before validating it, so a
non-empty path that fails extension validation is still stored as the
current selection, and a subsequent facial-recognition run hands exactly
that path to the model. -/
theorem select_image_stores_rejected_path (s : AppState) (p : String)
    (hp : p ≠ "") (hbad : imageExtMatch p = false) :
    (select_image s p).1.image_path = some p ∧
    (∀ model : String → String,
      run_facial_recognition (select_image s p).1 model =
        ({ image_path := some p,
           text_output := s.text_output ++
             ["Facial Recognition Result:\n" ++ model p ++ "\n"] }, none)) := by
  have hsel : select_image s p = ({ s with image_path := some p },
      some { title := "Invalid File", message := "Selected file is not a valid image." }) := by
    simp [select_image, hp, hbad]
  rw [hsel]
  exact ⟨rfl, fun _ => rfl⟩

/-- Witness for C9 at the initial state and the concrete path `"x.gif"`. -/
theorem select_image_stores_rejected_path_witness :
    ("x.gif" : String) ≠ "" ∧ imageExtMatch "x.gif" = false ∧
      (select_image (AppState.mk none []) "x.gif").1.image_path = some "x.gif" :=
  ⟨by decide, by decide,
    (select_image_stores_rejected_path (AppState.mk none []) "x.gif"
      (by decide) (by decide)).1⟩

/-- C10: a cancelled (empty) picker result still overwrites `image_path`
with the empty string, with no validation and no message box; the
attribute then exists, so the `hasattr` guard no longer fires and a
subsequent facial-recognition run passes the empty path to the model. -/
theorem empty_picker_result_defeats_guard (s : AppState) :
    select_image s "" = ({ s with image_path := some "" }, none) ∧
    (∀ model : String → String,
      run_facial_recognition (select_image s "").1 model =
        ({ image_path := some "",
           text_output := s.text_output ++
             ["Facial Recognition Result:\n" ++ model "" ++ "\n"] }, none)) :=
  ⟨rfl, fun _ => rfl⟩
